import Mathlib

/-!
# Verification of the gocoop coop controller (pkg/coop/coop.go)

A shallow embedding of the chicken-coop state machine from
`src/pkg/coop/coop.go`.  Go values are embedded as follows:

* `time.Time` instants are embedded as `Int` (a timestamp);
* `float64` coordinates are embedded as `Rat` (the source only ever
  compares them to zero and stores constants, no float arithmetic occurs);
* Go `error` values are embedded as `Option String` (`none` = nil error,
  `some msg` = the error with message `msg`, matching the source's
  `errors.New` / `fmt.Errorf` strings);
* the actuator (`door.Door`) is an external collaborator whose pin-level
  driver is outside the package; the outcome of each `door.Open()` /
  `door.Close()` call is supplied to a transition as an explicit
  parameter `d : Option String` (`none` = success, `some cause` = failure
  with that cause);
* a nil Go interface value (`conditions.Condition`) is `none` of an
  `Option Condition`; calling a method on it is a panic, embedded as the
  `none` result of an `Option`-returning function;
* mutation of the `Coop` struct is explicit state passing; to reason about
  the ORDER of status writes and actuator calls inside one transition, each
  transition also returns the list of statuses assigned to `coop.status`
  (`statusWrites`, in program order) and the list of actuator invocations
  (`doorCalls`, in program order).
-/

/-- The door status enum of the coop package (`Unknown` is the Go zero
value, hence the initial status of a freshly constructed `Coop`). -/
inductive Status where
  | Unknown
  | Opening
  | Opened
  | Closing
  | Closed
deriving DecidableEq, Repr

/-- One actuator invocation: `door.Open()` or `door.Close()`. -/
inductive DoorCall where
  | open
  | close
deriving DecidableEq, Repr

/-- A condition (`conditions.Condition` interface): yields today's opening
and closing timestamps for a reference instant. -/
structure Condition where
  openingTime : Int → Int
  closingTime : Int → Int

/-- The physical door reference (`door.Door`): constructed from GPIO pins;
its behaviour is supplied per call (see module docstring). -/
structure Door where
  pin1A : Int := 0
  pin1B : Int := 0
  pinEnable1 : Int := 0
deriving DecidableEq, Repr

/-- The `options` struct of the coop package: automatic-mode flag, the two
conditions, and the notifiers (modelled by their identifiers; the
controller never reads a notifier's result). -/
structure Options where
  isAutomatic : Bool := false
  openingCondition : Option Condition := none
  closingCondition : Option Condition := none
  notifiers : List String := []

/-- A functional option passed to `New` (the coop package's `Option`
type, renamed: `Option` is taken in Lean). -/
def Opt : Type := Options → Options

/-- The `Coop` struct: door reference, options, status, coordinates.
(The source also holds a `*time.Ticker`; the ticks it delivers are
modelled as explicit inputs to `watch`, see `watchRun`.) -/
structure Coop where
  door : Door
  opts : Options
  status : Status
  latitude : Rat
  longitude : Rat

/-- `DefaultLatitude` constant of the source. -/
def DefaultLatitude : Rat := 43.6043

/-- `DefaultLongitude` constant of the source. -/
def DefaultLongitude : Rat := 1.4437

/-- Message of the package-level `ErrAutomaticModeEnabled`. -/
def ErrAutomaticModeEnabled : String :=
  "cannot close the coop because automatic mode is enabled"

/-- Message of the package-level `ErrCoopAlreadyOpening`. -/
def ErrCoopAlreadyOpening : String := "coop is already opening"

/-- Message of the package-level `ErrCoopAlreadyClosing`. -/
def ErrCoopAlreadyClosing : String := "coop is already closing"

/-- Message produced by `open` and `close` when the status is `Unknown`
(the source uses the same wording in both). -/
def msgStatusUnknown : String := "cannot open the coop because the status unknown"

/-- Message produced by `open` when the status is `Opened`. -/
def msgAlreadyOpened : String := "coop is already opened"

/-- Message produced by `close` when the status is `Closed`. -/
def msgAlreadyClosed : String := "coop is already closed"

/-- Message produced by `close` when the status is `Opening`. -/
def msgAlreadyOpening : String := "coop is already opening"

/-- Message produced by `close` when the status is `Closing`. -/
def msgAlreadyClosing : String := "coop is already closing"

/-- Message produced by `Close` when automatic mode is set. -/
def msgAutomaticModeSet : String :=
  "cannot close the coop because automatic mode is set"

/-- Message produced by `Update` on a bad status literal. -/
def msgStatusIncorrect : String := "status is incorrect"

/-- A Go `error` value as the coop package produces them: either an error
with a constant message (`errors.New`, or `fmt.Errorf` with no verb), or
`fmt.Errorf("...: %s", err)` wrapping an underlying cause after a
constant head.  `GoError.message` recovers the exact source string. -/
inductive GoError where
  | lit (msg : String)
  | wrap (head cause : String)
deriving DecidableEq, Repr

/-- The message string of an embedded Go error. -/
def GoError.message : GoError → String
  | .lit msg => msg
  | .wrap head cause => head ++ cause

/-- The head text of the actuator-failure wrapper (both `open` and
`close` use this wording). -/
def doorFailureHead : String := "error while opening the door: "

/-- The spec's error taxonomy (spec section 7): each error kind named by
the spec, plus a bucket for messages outside the taxonomy. -/
inductive ErrKind where
  | statusUnknown
  | alreadyOpened
  | alreadyClosed
  | alreadyOpening
  | alreadyClosing
  | automaticModeEnabled
  | actuationFailed
  | invalidStatus
  | other
deriving DecidableEq, Repr

/-- Spec section 7's mapping of the source's error messages onto error
kinds: `ActuationFailed` is any error wrapping an underlying actuator
cause after the fixed wrapper text; `AutomaticModeEnabled` covers both
wordings the two manual entry points use; `close`'s `Unknown`-status and
`Opening`/`Closing`-status messages coincide with (respectively reword)
`open`'s, so they map to the same kinds. -/
def kindOf : GoError → ErrKind
  | .lit msg =>
    if msg = msgStatusUnknown then .statusUnknown
    else if msg = msgAlreadyOpened then .alreadyOpened
    else if msg = msgAlreadyClosed then .alreadyClosed
    else if msg = ErrCoopAlreadyOpening then .alreadyOpening
    else if msg = ErrCoopAlreadyClosing then .alreadyClosing
    else if msg = ErrAutomaticModeEnabled then .automaticModeEnabled
    else if msg = msgAutomaticModeSet then .automaticModeEnabled
    else if msg = msgStatusIncorrect then .invalidStatus
    else .other
  | .wrap head _ =>
    if head = doorFailureHead then .actuationFailed else .other

/-- One observable effect of a controller operation, in program order:
an assignment to `coop.status`, or an actuator invocation. -/
inductive CoopEvent where
  | wrote (s : Status)
  | called (k : DoorCall)
deriving DecidableEq, Repr

/-- Result of running one controller operation: the controller afterwards,
the returned error, and the effects (status writes and actuator calls) in
program order. -/
structure StepResult where
  coop : Coop
  err : Option GoError
  events : List CoopEvent

/-- The statuses assigned to `coop.status` during one operation, in
program order. -/
def StepResult.statusWrites (r : StepResult) : List Status :=
  r.events.filterMap (fun e =>
    match e with
    | .wrote s => some s
    | .called _ => none)

/-- The actuator invocations issued during one operation, in program
order. -/
def StepResult.doorCalls (r : StepResult) : List DoorCall :=
  r.events.filterMap (fun e =>
    match e with
    | .wrote _ => none
    | .called k => some k)

/-- The no-effect result: state kept, nil error, no status write, no
actuator call. -/
def noopStep (c : Coop) : StepResult := ⟨c, none, []⟩

/-- Discard the error of a transition's result (used by `Check`, whose Go
signature returns nothing: a transition failure is logged, not
propagated). -/
def StepResult.swallow (r : StepResult) : StepResult :=
  ⟨r.coop, none, r.events⟩

/-- The internal open transition (`func (coop *Coop) open() error`,
coop.go lines 175-204).  `d` is the outcome of the `door.Open()` call,
consulted only when that call is reached. -/
def Coop.openT (c : Coop) (d : Option String) : StepResult :=
  match c.status with
  | .Unknown => ⟨c, some (.lit msgStatusUnknown), []⟩
  | .Opened  => ⟨c, some (.lit msgAlreadyOpened), []⟩
  | .Opening => ⟨c, some (.lit ErrCoopAlreadyOpening), []⟩
  | .Closing => ⟨c, some (.lit ErrCoopAlreadyClosing), []⟩
  | .Closed  =>
    match d with
    | some cause =>
      ⟨{ c with status := .Unknown }, some (.wrap doorFailureHead cause),
        [.wrote .Opening, .called .open, .wrote .Unknown]⟩
    | none =>
      ⟨{ c with status := .Opened }, none,
        [.wrote .Opening, .called .open, .wrote .Opened]⟩

/-- The internal close transition (`func (coop *Coop) close() error`,
coop.go lines 216-245).  `d` is the outcome of the `door.Close()` call. -/
def Coop.closeT (c : Coop) (d : Option String) : StepResult :=
  match c.status with
  | .Unknown => ⟨c, some (.lit msgStatusUnknown), []⟩
  | .Closed  => ⟨c, some (.lit msgAlreadyClosed), []⟩
  | .Opening => ⟨c, some (.lit msgAlreadyOpening), []⟩
  | .Closing => ⟨c, some (.lit msgAlreadyClosing), []⟩
  | .Opened  =>
    match d with
    | some cause =>
      ⟨{ c with status := .Unknown }, some (.wrap doorFailureHead cause),
        [.wrote .Closing, .called .close, .wrote .Unknown]⟩
    | none =>
      ⟨{ c with status := .Closed }, none,
        [.wrote .Closing, .called .close, .wrote .Closed]⟩

/-- The manual `Open` entry point (coop.go lines 166-173): rejected with
`ErrAutomaticModeEnabled` when automatic mode is on, else delegates to the
internal open transition. -/
def Coop.Open (c : Coop) (d : Option String) : StepResult :=
  if c.opts.isAutomatic then ⟨c, some (.lit ErrAutomaticModeEnabled), []⟩
  else c.openT d

/-- The manual `Close` entry point (coop.go lines 207-214): rejected with
a `fmt.Errorf` automatic-mode message when automatic mode is on, else
delegates to the internal close transition. -/
def Coop.Close (c : Coop) (d : Option String) : StepResult :=
  if c.opts.isAutomatic then ⟨c, some (.lit msgAutomaticModeSet), []⟩
  else c.closeT d

/-- The `Update` request shape (`protocols.CoopUpdateRequestService`,
reconstructed from its use in coop.go lines 142-163: a status literal,
the automatic-mode flag and the two replacement conditions, either of
which may be a nil interface value). -/
structure CoopUpdateRequestService where
  Status : String
  IsAutomatic : Bool
  OpeningCondition : Option Condition
  ClosingCondition : Option Condition

/-- `Update` (coop.go lines 142-163): sets status from the literal
(`"opened"` / `"closed"`), rejects any other literal before mutating
anything, then installs the automatic flag and both conditions verbatim,
with no validation of the conditions. -/
def Coop.Update (c : Coop) (input : CoopUpdateRequestService) :
    Coop × Option GoError :=
  if input.Status = "opened" then
    ({ c with status := .Opened,
              opts := { c.opts with
                          isAutomatic := input.IsAutomatic,
                          openingCondition := input.OpeningCondition,
                          closingCondition := input.ClosingCondition } },
     none)
  else if input.Status = "closed" then
    ({ c with status := .Closed,
              opts := { c.opts with
                          isAutomatic := input.IsAutomatic,
                          openingCondition := input.OpeningCondition,
                          closingCondition := input.ClosingCondition } },
     none)
  else (c, some (.lit msgStatusIncorrect))

/-- Modelled from the spec: `Coop.shouldBeOpened` is called by `Check`
(coop.go line 272) but its definition is not under src/.  Spec section
4.4: "Should open" rule is
`opening.OpeningTime(now) <= now < closing.ClosingTime(now)`. -/
def shouldBeOpened (oc cc : Condition) (now : Int) : Bool :=
  decide (oc.openingTime now ≤ now) && decide (now < cc.closingTime now)

/-- Modelled from the spec: `Coop.shouldBeClosed` is called by `Check`
(coop.go line 289) but its definition is not under src/.  Spec section
4.4: "Should close" rule is `now >= closing.ClosingTime(now)`. -/
def shouldBeClosed (cc : Condition) (now : Int) : Bool :=
  decide (cc.closingTime now ≤ now)

/-- `Check` (coop.go lines 248-314).  Returns `none` on a Go panic: when
automatic mode is on, the debug log at the top of `Check` evaluates
`OpeningTime()` / `ClosingTime()` on both stored conditions, so a nil
condition interface is dereferenced there.  When automatic mode is off,
`Check` returns before touching the conditions.  `Check` itself returns
no error; a failing transition only causes an early (logged) return, so
the transition's state writes survive and its error is swallowed. -/
def Coop.Check (c : Coop) (now : Int) (d : Option String) :
    Option StepResult :=
  if !c.opts.isAutomatic then
    some (noopStep c)
  else
    match c.opts.openingCondition, c.opts.closingCondition with
    | some oc, some cc =>
      match c.status with
      | .Unknown => some (noopStep c)
      | .Opening => some (noopStep c)
      | .Closing => some (noopStep c)
      | .Closed =>
        if shouldBeOpened oc cc now then some (c.openT d).swallow
        else some (noopStep c)
      | .Opened =>
        if shouldBeClosed cc now then some (c.closeT d).swallow
        else some (noopStep c)
    | _, _ => none

/-- The factory `New` (coop.go lines 52-81): stores the coordinates,
applies the functional options to `c.opts`, then replaces a zero latitude
or longitude with the default; always returns a nil error.  (The source
never stores the `door` argument into the struct; the field keeps its
zero value.) -/
def New (latitude longitude : Rat) (door : Door) (opts : List Opt) :
    Coop × Option GoError :=
  let c : Coop :=
    { door := {},
      opts := opts.foldl (fun o f => f o) {},
      status := .Unknown,
      latitude := latitude,
      longitude := longitude }
  let c := if latitude = 0 then { c with latitude := DefaultLatitude } else c
  let c := if longitude = 0 then { c with longitude := DefaultLongitude } else c
  (c, none)

/-- Accessor `Latitude` (coop.go lines 112-114). -/
def Coop.Latitude (c : Coop) : Rat := c.latitude

/-- Accessor `Longitude` (coop.go lines 117-119). -/
def Coop.Longitude (c : Coop) : Rat := c.longitude

/-- `OpeningTime` (coop.go lines 132-134): calls `OpeningTime()` on the
stored opening condition; `none` is the panic on a nil condition. -/
def Coop.OpeningTime (c : Coop) (now : Int) : Option Int :=
  c.opts.openingCondition.map (fun cond => cond.openingTime now)

/-- `ClosingTime` (coop.go lines 137-139): calls `ClosingTime()` on the
stored closing condition; `none` is the panic on a nil condition. -/
def Coop.ClosingTime (c : Coop) (now : Int) : Option Int :=
  c.opts.closingCondition.map (fun cond => cond.closingTime now)

/-- One `Check` execution spawned by the scheduler loop: its start time
and how long it runs. -/
structure SpawnedCheck where
  start : Int
  duration : Int
deriving DecidableEq, Repr

/-- The scheduler loop `watch` (coop.go lines 87-91): for every tick
received on the ticker channel it runs `go coop.Check()` — it spawns one
asynchronous `Check` execution per tick, immediately, consulting no
in-flight guard and dropping no tick.  `ticks` are the tick times the
loop receives; `duration` gives each spawned execution's running time. -/
def watchRun (ticks : List Int) (duration : Int → Int) :
    List SpawnedCheck :=
  ticks.map (fun t => ⟨t, duration t⟩)

/-- How many spawned `Check` executions are in flight at instant `t`:
an execution started at `s` with duration `dur` occupies `[s, s+dur)`. -/
def inFlightAt (runs : List SpawnedCheck) (t : Int) : Nat :=
  (runs.filter (fun r => decide (r.start ≤ t) && decide (t < r.start + r.duration))).length

/-- One controller call in a sequence: a manual `Open`, a manual `Close`,
or a scheduler `Check`, each with the actuator outcome `d` its actuator
call (if reached) would observe, and for `Check` the instant `now`. -/
inductive CoopOp where
  | openOp (d : Option String)
  | closeOp (d : Option String)
  | checkOp (now : Int) (d : Option String)

/-- Run one call of a sequence (`none` = the call panicked). -/
def applyOp (c : Coop) : CoopOp → Option StepResult
  | .openOp d => some (c.Open d)
  | .closeOp d => some (c.Close d)
  | .checkOp now d => c.Check now d

/-- All values taken by `coop.status` strictly after the start of a run
of calls, in program order (a panic kills the process, ending the
trace). -/
def statusTrace (c : Coop) : List CoopOp → List Status
  | [] => []
  | op :: rest =>
    match applyOp c op with
    | none => []
    | some r => r.statusWrites ++ statusTrace r.coop rest

/-- The status-change edges the spec allows: the two legal paths
`Closed→Opening→{Opened,Unknown}` and `Opened→Closing→{Closed,Unknown}`. -/
def allowedEdge : Status → Status → Bool
  | .Closed, .Opening => true
  | .Opening, .Opened => true
  | .Opening, .Unknown => true
  | .Opened, .Closing => true
  | .Closing, .Closed => true
  | .Closing, .Unknown => true
  | _, _ => false

/-- `chainFrom s l`: starting at status `s`, every successive status of
`l` is reached by an allowed edge. -/
def chainFrom : Status → List Status → Bool
  | _, [] => true
  | s, t :: rest => allowedEdge s t && chainFrom t rest

/-- A status is one of the five defined values (trivially exhaustive:
`Status` has exactly the five constructors). -/
def isDefinedStatus : Status → Bool
  | .Unknown => true
  | .Opening => true
  | .Opened => true
  | .Closing => true
  | .Closed => true

/-!
## Supporting lemmas
-/

theorem isDefinedStatus_eq_true (s : Status) : isDefinedStatus s = true := by
  cases s <;> rfl

/-- The last status of a write list, starting from `s` if none was
written. -/
def lastWrite (s : Status) : List Status → Status
  | [] => s
  | t :: rest => lastWrite t rest

theorem chainFrom_append (xs ys : List Status) (s : Status) :
    chainFrom s (xs ++ ys)
      = (chainFrom s xs && chainFrom (lastWrite s xs) ys) := by
  induction xs generalizing s with
  | nil => simp [chainFrom, lastWrite]
  | cons a xs ih =>
    simp [chainFrom, ih, lastWrite, Bool.and_assoc]

theorem openT_chain (c : Coop) (d : Option String) :
    chainFrom c.status (c.openT d).statusWrites = true ∧
      (c.openT d).coop.status = lastWrite c.status (c.openT d).statusWrites := by
  cases hc : c.status <;> cases d <;>
    simp [Coop.openT, hc, chainFrom, allowedEdge, lastWrite]

theorem closeT_chain (c : Coop) (d : Option String) :
    chainFrom c.status (c.closeT d).statusWrites = true ∧
      (c.closeT d).coop.status = lastWrite c.status (c.closeT d).statusWrites := by
  cases hc : c.status <;> cases d <;>
    simp [Coop.closeT, hc, chainFrom, allowedEdge, lastWrite]

theorem applyOp_chain (c : Coop) (op : CoopOp) (r : StepResult)
    (h : applyOp c op = some r) :
    chainFrom c.status r.statusWrites = true ∧
      r.coop.status = lastWrite c.status r.statusWrites := by
  cases op with
  | openOp d =>
    simp only [applyOp, Option.some.injEq] at h
    subst h
    unfold Coop.Open
    by_cases hA : c.opts.isAutomatic
    · simp [hA, chainFrom, lastWrite]
    · simp [hA]
      exact openT_chain c d
  | closeOp d =>
    simp only [applyOp, Option.some.injEq] at h
    subst h
    unfold Coop.Close
    by_cases hA : c.opts.isAutomatic
    · simp [hA, chainFrom, lastWrite]
    · simp [hA]
      exact closeT_chain c d
  | checkOp now d =>
    simp only [applyOp] at h
    unfold Coop.Check at h
    by_cases hA : c.opts.isAutomatic
    · simp only [hA, Bool.not_true] at h
      cases ho : c.opts.openingCondition with
      | none =>
        rw [ho] at h
        cases hcl : c.opts.closingCondition <;> rw [hcl] at h <;>
          simp at h
      | some oc =>
        rw [ho] at h
        cases hcl : c.opts.closingCondition with
        | none => rw [hcl] at h; simp at h
        | some cc =>
          rw [hcl] at h
          cases hs : c.status <;> rw [hs] at h <;>
            simp only [Bool.false_eq_true, if_false] at h
          · simp only [Option.some.injEq] at h
            subst h
            simp [noopStep, chainFrom, lastWrite, hs]
          · simp only [Option.some.injEq] at h
            subst h
            simp [noopStep, chainFrom, lastWrite, hs]
          · split at h <;> simp only [Option.some.injEq] at h <;> subst h
            · have := closeT_chain c d
              simpa [StepResult.swallow, hs] using this
            · simp [noopStep, chainFrom, lastWrite, hs]
          · simp only [Option.some.injEq] at h
            subst h
            simp [noopStep, chainFrom, lastWrite, hs]
          · split at h <;> simp only [Option.some.injEq] at h <;> subst h
            · have := openT_chain c d
              simpa [StepResult.swallow, hs] using this
            · simp [noopStep, chainFrom, lastWrite, hs]
    · simp only [hA, Bool.not_false, if_pos, Option.some.injEq] at h
      subst h
      simp [noopStep, chainFrom, lastWrite]

theorem statusTrace_chain (c : Coop) (ops : List CoopOp) :
    chainFrom c.status (statusTrace c ops) = true := by
  induction ops generalizing c with
  | nil => simp [statusTrace, chainFrom]
  | cons op rest ih =>
    cases h : applyOp c op with
    | none => simp [statusTrace, h, chainFrom]
    | some r =>
      have hc := applyOp_chain c op r h
      simp [statusTrace, h, chainFrom_append, hc.1, ← hc.2, ih]

/-- A concrete controller used to instantiate theorems with hypotheses. -/
def sampleCoop : Coop :=
  { door := {}, opts := {}, status := .Closed, latitude := 1, longitude := 2 }

/-- A concrete `Update` request used to instantiate theorems with
hypotheses. -/
def sampleRequest : CoopUpdateRequestService :=
  { Status := "opened", IsAutomatic := true,
    OpeningCondition := none, ClosingCondition := none }

/-!
## The claims
-/

/-- C1: for every controller state, an open-transition attempt fails with
`StatusUnknown` when the status is `Unknown`, `AlreadyOpened` when
`Opened`, `AlreadyOpening` when `Opening`, `AlreadyClosing` when
`Closing`; a close-transition attempt fails with `StatusUnknown` when
`Unknown`, `AlreadyClosed` when `Closed`, `AlreadyOpening` when
`Opening`, `AlreadyClosing` when `Closing`; in every failure case the
controller (status and all other fields) is returned unchanged, with no
status write and no actuator call. -/
theorem illegal_transition_attempts_reject_unchanged
    (c : Coop) (d : Option String) :
    (({ c with status := .Unknown } : Coop).openT d
        = ⟨{ c with status := .Unknown }, some (.lit msgStatusUnknown), []⟩) ∧
    (({ c with status := .Opened } : Coop).openT d
        = ⟨{ c with status := .Opened }, some (.lit msgAlreadyOpened), []⟩) ∧
    (({ c with status := .Opening } : Coop).openT d
        = ⟨{ c with status := .Opening }, some (.lit ErrCoopAlreadyOpening), []⟩) ∧
    (({ c with status := .Closing } : Coop).openT d
        = ⟨{ c with status := .Closing }, some (.lit ErrCoopAlreadyClosing), []⟩) ∧
    (({ c with status := .Unknown } : Coop).closeT d
        = ⟨{ c with status := .Unknown }, some (.lit msgStatusUnknown), []⟩) ∧
    (({ c with status := .Closed } : Coop).closeT d
        = ⟨{ c with status := .Closed }, some (.lit msgAlreadyClosed), []⟩) ∧
    (({ c with status := .Opening } : Coop).closeT d
        = ⟨{ c with status := .Opening }, some (.lit msgAlreadyOpening), []⟩) ∧
    (({ c with status := .Closing } : Coop).closeT d
        = ⟨{ c with status := .Closing }, some (.lit msgAlreadyClosing), []⟩) ∧
    kindOf (.lit msgStatusUnknown) = .statusUnknown ∧
    kindOf (.lit msgAlreadyOpened) = .alreadyOpened ∧
    kindOf (.lit ErrCoopAlreadyOpening) = .alreadyOpening ∧
    kindOf (.lit ErrCoopAlreadyClosing) = .alreadyClosing ∧
    kindOf (.lit msgAlreadyClosed) = .alreadyClosed ∧
    kindOf (.lit msgAlreadyOpening) = .alreadyOpening ∧
    kindOf (.lit msgAlreadyClosing) = .alreadyClosing := by
  refine ⟨rfl, rfl, rfl, rfl, rfl, rfl, rfl, rfl, ?_, ?_, ?_, ?_, ?_, ?_, ?_⟩ <;>
    decide

/-- C2: on the legal open path (status `Closed`; symmetrically `Opened`
for close) the controller first writes status `Opening` (`Closing`), then
invokes the actuator; on actuator failure it writes status `Unknown` and
returns an `ActuationFailed` error whose message wraps the underlying
cause; on success it writes status `Opened` (`Closed`) and returns no
error. -/
theorem legal_transition_event_order (c : Coop) (cause : String) :
    (({ c with status := .Closed } : Coop).openT (some cause)
        = ⟨{ c with status := .Unknown }, some (.wrap doorFailureHead cause),
            [.wrote .Opening, .called .open, .wrote .Unknown]⟩) ∧
    (({ c with status := .Closed } : Coop).openT none
        = ⟨{ c with status := .Opened }, none,
            [.wrote .Opening, .called .open, .wrote .Opened]⟩) ∧
    (({ c with status := .Opened } : Coop).closeT (some cause)
        = ⟨{ c with status := .Unknown }, some (.wrap doorFailureHead cause),
            [.wrote .Closing, .called .close, .wrote .Unknown]⟩) ∧
    (({ c with status := .Opened } : Coop).closeT none
        = ⟨{ c with status := .Closed }, none,
            [.wrote .Closing, .called .close, .wrote .Closed]⟩) ∧
    kindOf (.wrap doorFailureHead cause) = .actuationFailed ∧
    GoError.message (.wrap doorFailureHead cause)
        = "error while opening the door: " ++ cause := by
  refine ⟨rfl, rfl, rfl, rfl, ?_, rfl⟩
  simp [kindOf]

/-- C3: over every sequence of `Open`, `Close` and `Check` calls (no
`Update`), the status only ever takes the five defined values, and every
status change is one of `Closed→Opening`, `Opening→Opened`,
`Opening→Unknown`, `Opened→Closing`, `Closing→Closed`,
`Closing→Unknown`. -/
theorem status_machine_invariant (c : Coop) (ops : List CoopOp) :
    ((c.status :: statusTrace c ops).all isDefinedStatus = true) ∧
      chainFrom c.status (statusTrace c ops) = true := by
  refine ⟨?_, statusTrace_chain c ops⟩
  simp [List.all_eq_true, isDefinedStatus_eq_true]

/-- An automatic-mode controller with both conditions installed and the
given status (every controller whose `isAutomatic` is true and whose
conditions are non-nil is of this shape). -/
def withAuto (c : Coop) (oc cc : Condition) (s : Status) : Coop :=
  { c with
      status := s,
      opts := { c.opts with
                  isAutomatic := true,
                  openingCondition := some oc,
                  closingCondition := some cc } }

/-- C4 (spec-modelled: the bodies of `shouldBeOpened` / `shouldBeClosed`
are not under src/, modelled from spec section 4.4): `Check` is a no-op —
no status write, no actuator call — when `isAutomatic` is false, and when
the status is `Unknown`, `Opening` or `Closing`; from `Closed` it runs
the open transition exactly when
`openingCondition.OpeningTime(now) <= now < closingCondition.ClosingTime(now)`;
from `Opened` it runs the close transition exactly when
`now >= closingCondition.ClosingTime(now)`; a failure of the invoked
transition is swallowed, never propagated (`Check`'s error is always
nil). -/
theorem check_decision_rule (c : Coop) (oc cc : Condition) (now : Int)
    (d : Option String) :
    (Coop.Check { c with opts := { c.opts with isAutomatic := false } } now d
        = some (noopStep
            { c with opts := { c.opts with isAutomatic := false } })) ∧
    ((withAuto c oc cc .Unknown).Check now d
        = some (noopStep (withAuto c oc cc .Unknown))) ∧
    ((withAuto c oc cc .Opening).Check now d
        = some (noopStep (withAuto c oc cc .Opening))) ∧
    ((withAuto c oc cc .Closing).Check now d
        = some (noopStep (withAuto c oc cc .Closing))) ∧
    ((withAuto c oc cc .Closed).Check now d
        = some (if shouldBeOpened oc cc now
            then ((withAuto c oc cc .Closed).openT d).swallow
            else noopStep (withAuto c oc cc .Closed))) ∧
    ((withAuto c oc cc .Opened).Check now d
        = some (if shouldBeClosed cc now
            then ((withAuto c oc cc .Opened).closeT d).swallow
            else noopStep (withAuto c oc cc .Opened))) ∧
    (shouldBeOpened oc cc now
        = (decide (oc.openingTime now ≤ now) && decide (now < cc.closingTime now))) ∧
    (shouldBeClosed cc now = decide (cc.closingTime now ≤ now)) := by
  refine ⟨rfl, rfl, rfl, rfl, ?_, ?_, rfl, rfl⟩ <;>
    · simp only [Coop.Check, withAuto, Bool.not_true, Bool.false_eq_true,
        if_false]
      split <;> rfl

/-- C5: `Update` with status literal `"opened"` (resp. `"closed"`)
succeeds, replacing status with `Opened` (resp. `Closed`), the automatic
flag and both conditions with the requested values; any other literal
fails with `InvalidStatus` and mutates no field. -/
theorem update_literal_validation (c : Coop)
    (inp : CoopUpdateRequestService) (s : String)
    (h1 : s ≠ "opened") (h2 : s ≠ "closed") :
    (c.Update { inp with Status := "opened" }
        = ({ c with status := .Opened,
                    opts := { c.opts with
                                isAutomatic := inp.IsAutomatic,
                                openingCondition := inp.OpeningCondition,
                                closingCondition := inp.ClosingCondition } },
           none)) ∧
    (c.Update { inp with Status := "closed" }
        = ({ c with status := .Closed,
                    opts := { c.opts with
                                isAutomatic := inp.IsAutomatic,
                                openingCondition := inp.OpeningCondition,
                                closingCondition := inp.ClosingCondition } },
           none)) ∧
    (c.Update { inp with Status := s }
        = (c, some (.lit msgStatusIncorrect))) ∧
    kindOf (.lit msgStatusIncorrect) = .invalidStatus := by
  refine ⟨rfl, rfl, ?_, by decide⟩
  simp [Coop.Update, h1, h2]

/-- C5 witness: the theorem applied to concrete inputs, with the literal
`"invalid"` discharging both hypotheses. -/
theorem update_literal_validation_witness :
    ("invalid" : String) ≠ "opened" ∧ ("invalid" : String) ≠ "closed" ∧
      sampleCoop.Update { sampleRequest with Status := "invalid" }
        = (sampleCoop, some (.lit msgStatusIncorrect)) :=
  ⟨by decide, by decide,
    (update_literal_validation sampleCoop sampleRequest "invalid"
      (by decide) (by decide)).2.2.1⟩

/-- C6: whenever `isAutomatic` is true, a manual `Open` and a manual
`Close` fail with an error of the `AutomaticModeEnabled` kind, with no
status write, no actuator call, and the controller returned entirely
unchanged, regardless of the current status. -/
theorem automatic_mode_blocks_manual_calls (c : Coop) (d : Option String) :
    (Coop.Open { c with opts := { c.opts with isAutomatic := true } } d
        = ⟨{ c with opts := { c.opts with isAutomatic := true } },
            some (.lit ErrAutomaticModeEnabled), []⟩) ∧
    (Coop.Close { c with opts := { c.opts with isAutomatic := true } } d
        = ⟨{ c with opts := { c.opts with isAutomatic := true } },
            some (.lit msgAutomaticModeSet), []⟩) ∧
    kindOf (.lit ErrAutomaticModeEnabled) = .automaticModeEnabled ∧
    kindOf (.lit msgAutomaticModeSet) = .automaticModeEnabled := by
  exact ⟨rfl, rfl, by decide, by decide⟩

/-- C8: `New` stores the given latitude unless it is zero, in which case
it stores `DefaultLatitude`; independently the same for longitude and
`DefaultLongitude`; `Latitude()` / `Longitude()` return the stored
values. -/
theorem new_coordinate_defaulting (lat lon : Rat) (door : Door)
    (opts : List Opt) :
    ((New lat lon door opts).1.Latitude
        = if lat = 0 then DefaultLatitude else lat) ∧
    ((New lat lon door opts).1.Longitude
        = if lon = 0 then DefaultLongitude else lon) := by
  constructor <;> by_cases h1 : lat = 0 <;> by_cases h2 : lon = 0 <;>
    simp [New, Coop.Latitude, Coop.Longitude, h1, h2]

/-- C9: `New` always returns a nil error, for every input. -/
theorem new_never_fails (lat lon : Rat) (door : Door) (opts : List Opt) :
    (New lat lon door opts).2 = none := rfl

/-- C7 (evidence against the claim): the scheduler loop spawns one
asynchronous `Check` per tick and drops none, so executions can overlap.
Ticks at instants 0 and 10 with each `Check` running for 15: the loop
spawns both, and at instant 10 two `Check` executions are in flight — the
claimed "at most one in flight, later tick dropped" does not hold of
`watch`. -/
theorem watch_spawns_overlapping_checks :
    watchRun [0, 10] (fun _ => 15) = [⟨0, 15⟩, ⟨10, 15⟩] ∧
      inFlightAt (watchRun [0, 10] (fun _ => 15)) 10 = 2 := by
  exact ⟨rfl, by decide⟩

/-- An `Update` request attesting status `"opened"`, enabling automatic
mode and carrying two nil condition interfaces. -/
def nilCondAutoRequest : CoopUpdateRequestService :=
  { Status := "opened", IsAutomatic := true,
    OpeningCondition := none, ClosingCondition := none }

/-- The same request with automatic mode off. -/
def nilCondManualRequest : CoopUpdateRequestService :=
  { Status := "opened", IsAutomatic := false,
    OpeningCondition := none, ClosingCondition := none }

/-- C10 (counterexample): after an `Update` that succeeds with status
literal `"opened"`, nil conditions and automatic mode off, `Check` does
NOT dereference the stored conditions — it returns normally (no panic),
refuting the claim that a `Check` call after such an update is undefined. -/
theorem check_survives_nil_conditions_manual_mode :
    ((sampleCoop.Update nilCondManualRequest).2 = none) ∧
    ((sampleCoop.Update nilCondManualRequest).1.opts.openingCondition
        = none) ∧
    ((sampleCoop.Update nilCondManualRequest).1.Check 0 none
        = some (noopStep (sampleCoop.Update nilCondManualRequest).1)) :=
  ⟨rfl, rfl, rfl⟩

/-- C10 (amended): an `Update` whose status literal is `"opened"` or
`"closed"` succeeds and installs the supplied conditions without any
validation, including nil ones; after such an update `OpeningTime()` and
`ClosingTime()` dereference the stored condition and so panic on a nil
condition, and `Check` does so exactly when the installed automatic flag
is true — with automatic mode off `Check` returns without touching the
conditions. -/
theorem update_nil_conditions_panic_surface (c : Coop) (now : Int)
    (d : Option String) :
    ((c.Update nilCondAutoRequest).2 = none) ∧
    ((c.Update nilCondAutoRequest).1.opts.openingCondition = none) ∧
    ((c.Update nilCondAutoRequest).1.opts.closingCondition = none) ∧
    ((c.Update nilCondAutoRequest).1.OpeningTime now = none) ∧
    ((c.Update nilCondAutoRequest).1.ClosingTime now = none) ∧
    ((c.Update nilCondAutoRequest).1.Check now d = none) ∧
    ((c.Update nilCondManualRequest).2 = none) ∧
    ((c.Update nilCondManualRequest).1.OpeningTime now = none) ∧
    ((c.Update nilCondManualRequest).1.ClosingTime now = none) ∧
    ((c.Update nilCondManualRequest).1.Check now d
        = some (noopStep (c.Update nilCondManualRequest).1)) :=
  ⟨rfl, rfl, rfl, rfl, rfl, rfl, rfl, rfl, rfl, rfl⟩
